import Mathlib

/-!
# Verification of the map-visualization core of the logistics dashboard

This file gives a shallow embedding, in Lean 4, of the map-visualization
core of the repository (Geocoder, Point Codec, Clustering Engine) together
with the pieces of the surrounding pages that consume it
(`src/pages/Dashboard.tsx`, `src/components/SriLankaMap.tsx`,
`src/utils/seedRouteData.ts`), and proves the specified properties.

The utility module `src/utils/geocoding.ts` / `src/utils/mapOptimizations.ts`
is not present in the source tree (only its callers are), so those
definitions are modelled from the specification; each such definition
carries a doc comment starting with `Modelled from the spec:`.

JavaScript numbers are modelled by rationals (`ℚ`); a finite number in its
canonical decimal print form is modelled by `DecNum`
(sign / integer digits / fraction digits).
-/

set_option allowUnsafeReducibility true
attribute [semireducible] Rat.add Rat.mul Rat.inv Rat.div Rat.sub Rat.neg Rat.blt

deriving instance DecidableEq for Except

namespace FypMap

/-! ## Characters and digits -/

/-- Is `c` an ASCII decimal digit (`'0'`–`'9'`)? -/
def isDigitChar (c : Char) : Bool := 48 ≤ c.toNat && c.toNat ≤ 57

/-- Is `c` whitespace (space, tab, newline, carriage return)? -/
def isWsChar (c : Char) : Bool := c = ' ' || c = '\t' || c = '\n' || c = '\r'

/-- The character printing the decimal digit `d` (meaningful for `d < 10`). -/
def digitChar (d : Nat) : Char := Char.ofNat (48 + d)

/-- The decimal digit denoted by the character `c`. -/
def digitVal (c : Char) : Nat := c.toNat - 48

/-- Trim leading and trailing whitespace from a character list
(the model of JavaScript `String.prototype.trim`). -/
def trimChars (l : List Char) : List Char :=
  ((l.dropWhile isWsChar).reverse.dropWhile isWsChar).reverse

/-! ## Decimal numbers

`DecNum` models a finite JavaScript number written in plain decimal
notation, exactly as it appears inside a point literal such as
`"(79.8612,6.9271)"`: an optional sign, the digits of the integer part
(most significant first) and the digits of the fraction part. -/

/-- A decimal-notation number: sign, integer-part digits, fraction digits. -/
structure DecNum where
  neg : Bool
  ip : List Nat
  fp : List Nat
  deriving DecidableEq, Repr

/-- Well-formedness of a `DecNum`: a nonempty integer part and every digit
below ten (exactly the strings produced by printing a finite number in
plain decimal notation). -/
def DecNum.WF (n : DecNum) : Prop :=
  n.ip ≠ [] ∧ (∀ d ∈ n.ip, d < 10) ∧ ∀ d ∈ n.fp, d < 10

instance (n : DecNum) : Decidable n.WF := by
  unfold DecNum.WF; infer_instance

/-- The rational value of a `DecNum`. -/
def DecNum.toRat (n : DecNum) : ℚ :=
  let ipv : ℚ := (n.ip.foldl (fun a d => 10 * a + d) 0 : Nat)
  let fpv : ℚ := n.fp.foldr (fun (d : Nat) (a : ℚ) => (d + a) / 10) 0
  if n.neg then -(ipv + fpv) else ipv + fpv

/-- Print a `DecNum` in decimal notation, e.g. `"-79.8612"`. -/
def printDecNum (n : DecNum) : List Char :=
  (if n.neg then ['-'] else []) ++ n.ip.map digitChar ++
    (if n.fp = [] then [] else '.' :: n.fp.map digitChar)

/-! ## Coordinates -/

/-- A latitude/longitude pair with rational components: the model of the
`Coordinates` interface of the geocoding module. -/
structure Coordinate where
  lat : ℚ
  lng : ℚ
  deriving DecidableEq, Repr

/-- A coordinate whose components are decimal-notation numbers: a
`Coordinates` value as it crosses the point-literal wire format. -/
structure DecCoord where
  lat : DecNum
  lng : DecNum
  deriving DecidableEq, Repr

/-- Well-formedness of both components. -/
def DecCoord.WF (c : DecCoord) : Prop := c.lat.WF ∧ c.lng.WF

instance (c : DecCoord) : Decidable c.WF := by
  unfold DecCoord.WF; infer_instance

/-- The rational coordinate denoted by a `DecCoord`. -/
def DecCoord.toCoordinate (c : DecCoord) : Coordinate :=
  { lat := c.lat.toRat, lng := c.lng.toRat }

/-! ## Point Codec -/

/-- Error signalled by the Point Codec on malformed input. -/
inductive ParseError where
  | invalidPointString (s : String)
  deriving DecidableEq, Repr

/-- Modelled from the spec: Point Codec encode (`toPostgresPoint` in the
missing `src/utils/geocoding.ts`). Formats a coordinate as the point
literal `"(longitude,latitude)"` — x position holds the longitude, y
position the latitude. -/
def toPostgresPoint (c : DecCoord) : String :=
  ⟨'(' :: (printDecNum c.lng ++ ',' :: (printDecNum c.lat ++ [')']))⟩

/-- Consume a maximal run of digit characters, returning the digits read
and the remaining input. -/
def parseDigits : List Char → List Nat × List Char
  | [] => ([], [])
  | c :: cs =>
    if isDigitChar c then
      let p := parseDigits cs
      (digitVal c :: p.1, p.2)
    else ([], c :: cs)

/-- Parse one decimal number (optional `'-'`, one or more integer digits,
optionally `'.'` followed by one or more fraction digits); return the
number and the remaining input, or `none`. -/
def parseNumber (cs : List Char) : Option (DecNum × List Char) :=
  let neg : Bool := cs.head? = some '-'
  let cs1 := if cs.head? = some '-' then cs.tail else cs
  let p1 := parseDigits cs1
  if p1.1 = [] then none
  else if p1.2.head? = some '.' then
    let p2 := parseDigits p1.2.tail
    if p2.1 = [] then none else some (⟨neg, p1.1, p2.1⟩, p2.2)
  else some (⟨neg, p1.1, []⟩, p1.2)

/-- Decode the character list of a point literal: optional surrounding
whitespace, then `'('`, a number, `','`, a number, `')'`. -/
def decodePointChars (cs : List Char) : Option DecCoord :=
  let t := trimChars cs
  if t.head? = some '(' then
    match parseNumber t.tail with
    | none => none
    | some (x, r1) =>
      if r1.head? = some ',' then
        match parseNumber r1.tail with
        | none => none
        | some (y, r2) =>
          if r2 = [')'] then some { lat := y, lng := x } else none
      else none
  else none

/-- Modelled from the spec: Point Codec decode (`parsePostgresPoint` in the
missing `src/utils/geocoding.ts`). Parses a `"(x,y)"` point literal
(optionally with surrounding whitespace) into a coordinate, mapping x to
longitude and y to latitude; signals a `ParseError` on any string not
matching that pattern. -/
def parsePostgresPoint (s : String) : Except ParseError DecCoord :=
  match decodePointChars s.data with
  | some c => .ok c
  | none => .error (.invalidPointString s)

/-! ## Geocoder -/

/-- ASCII lower-casing of one character. -/
def toLowerChar (c : Char) : Char :=
  if 65 ≤ c.toNat ∧ c.toNat ≤ 90 then Char.ofNat (c.toNat + 32) else c

/-- The lower-cased characters of a string. -/
def lowerChars (s : String) : List Char := s.data.map toLowerChar

/-- Does `l` start with `pre`? -/
def startsList : List Char → List Char → Bool
  | _, [] => true
  | [], _ :: _ => false
  | a :: as, b :: bs => decide (a = b) && startsList as bs

/-- Does `l` contain `sub` as a contiguous sublist? -/
def containsList (sub : List Char) : List Char → Bool
  | [] => startsList [] sub
  | c :: t => startsList (c :: t) sub || containsList sub t

/-- Modelled from the spec: the Geocoder's static Named Location table of
the missing `src/utils/geocoding.ts` (name → Coordinate), whose fixed
Colombo entry the spec cites; the place names and coordinates are the ones
recorded for these cities in `src/utils/seedRouteData.ts`. -/
def namedLocations : List (String × Coordinate) :=
  [("Colombo", ⟨69271/10000, 798612/10000⟩),
   ("Kandy", ⟨72906/10000, 806337/10000⟩),
   ("Galle", ⟨60535/10000, 802210/10000⟩),
   ("Jaffna", ⟨96615/10000, 800255/10000⟩),
   ("Trincomalee", ⟨85874/10000, 812152/10000⟩),
   ("Batticaloa", ⟨77170/10000, 817000/10000⟩),
   ("Negombo", ⟨72081/10000, 798352/10000⟩),
   ("Anuradhapura", ⟨83114/10000, 804037/10000⟩),
   ("Matara", ⟨59485/10000, 805353/10000⟩),
   ("Kurunegala", ⟨74867/10000, 803647/10000⟩)]

/-- The sum of the character codes of a string. -/
def charCodeSum (s : String) : Nat := s.data.foldl (fun a c => a + c.toNat) 0

/-- Modelled from the spec: the default center around which unresolvable
names are placed (central Sri Lanka). -/
def GEOCODE_FALLBACK_CENTER : Coordinate := ⟨78731/10000, 807718/10000⟩

/-- Modelled from the spec: the Geocoder's deterministic pseudo-random
fallback of the missing `src/utils/geocoding.ts` — the input string's
character codes are summed and seed an offset within one degree of the
default center, so the same unresolved name always maps to the same
coordinate. -/
def fallbackCoordinate (s : String) : Coordinate :=
  { lat := GEOCODE_FALLBACK_CENTER.lat + ((charCodeSum s % 200 : Nat) : ℚ) / 100 - 1,
    lng := GEOCODE_FALLBACK_CENTER.lng + ((charCodeSum s * 7 % 200 : Nat) : ℚ) / 100 - 1 }

/-- Modelled from the spec: the Geocoder (`geocodeLocation` in the missing
`src/utils/geocoding.ts`). The trimmed input is matched case-insensitively,
by substring containment in either direction, against the Named Location
table (first match wins); empty or whitespace-only input and unresolvable
names take the deterministic fallback path. Total: every string returns a
Coordinate. -/
def geocodeLocation (s : String) : Coordinate :=
  let q := trimChars (lowerChars s)
  if q = [] then fallbackCoordinate s
  else
    match namedLocations.find? (fun e =>
      containsList q (lowerChars e.1) || containsList (lowerChars e.1) q) with
    | some e => e.2
    | none => fallbackCoordinate s

/-! ## Markers -/

/-- Container status (the closed set of the `containers` table). -/
inductive ContainerStatus where
  | active
  | inactive
  | warning
  deriving DecidableEq, Repr

/-- A plain marker: the model of a `ContainerMarker` value as produced by
the data-fetch layer (no cluster fields set). -/
structure Marker where
  id : Int
  name : String
  location : String
  coordinates : Coordinate
  status : ContainerStatus
  temperature : Option ℚ
  humidity : Option ℚ
  battery_level : Option ℚ
  deriving DecidableEq, Repr

/-- A marker at the rendering boundary: the model of the `ContainerMarker`
interface of `src/components/SriLankaMap.tsx` — the marker-shaped part
plus the optional cluster fields (`isCluster`, `clusterSize`,
`containers`). -/
structure ContainerMarker where
  base : Marker
  isCluster : Bool
  clusterSize : Option Nat
  containers : List Marker
  deriving DecidableEq, Repr

/-- A plain marker viewed at the rendering boundary (cluster fields unset). -/
def Marker.toContainerMarker (m : Marker) : ContainerMarker :=
  { base := m, isCluster := false, clusterSize := none, containers := [] }

/-! ## Clustering Engine -/

/-- Modelled from the spec: the fixed marker-count threshold of the missing
`src/utils/mapOptimizations.ts` (value from the spec's cluster scenario,
`threshold_count = 3`). -/
def CLUSTER_COUNT_THRESHOLD : Nat := 3

/-- Modelled from the spec: the fixed zoom threshold of the missing
`src/utils/mapOptimizations.ts` (value from the spec's cluster scenario,
`threshold_zoom = 5`). -/
def CLUSTER_ZOOM_THRESHOLD : Int := 5

/-- Modelled from the spec: the fixed grouping distance threshold, in
coordinate-degree space, of the missing `src/utils/mapOptimizations.ts`
(half a degree; the spec fixes no value but requires markers within
0.01 degrees to group). -/
def CLUSTER_DISTANCE_THRESHOLD : ℚ := 1/2

/-- Modelled from the spec: the clustering decision gate
(`shouldApplyClustering` in the missing `src/utils/mapOptimizations.ts`):
true exactly when the marker count exceeds the count threshold AND the
zoom level is below the zoom threshold. -/
def shouldApplyClustering (count : Nat) (zoom : Int) : Bool :=
  decide (CLUSTER_COUNT_THRESHOLD < count) && decide (zoom < CLUSTER_ZOOM_THRESHOLD)

/-- Are two coordinates within the fixed grouping distance (Euclidean
distance in degree space, compared on squares so the test is exact)? -/
def withinClusterDistance (a b : Coordinate) : Bool :=
  decide ((a.lat - b.lat) ^ 2 + (a.lng - b.lng) ^ 2 ≤ CLUSTER_DISTANCE_THRESHOLD ^ 2)

/-- The most severe status among the members: warning and inactive
dominate active, in that priority. -/
def worstStatus (l : List Marker) : ContainerStatus :=
  if l.any (fun x => x.status == ContainerStatus.warning) then .warning
  else if l.any (fun x => x.status == ContainerStatus.inactive) then .inactive
  else .active

/-- The arithmetic mean of the members' coordinates. -/
def meanCoordinate (l : List Marker) : Coordinate :=
  { lat := (l.map (fun x => x.coordinates.lat)).sum / (l.length : ℚ),
    lng := (l.map (fun x => x.coordinates.lng)).sum / (l.length : ℚ) }

/-- The Cluster Marker standing in for the group `m :: near`: coordinate is
the arithmetic mean of the member coordinates, status the most severe
member status, and it carries the member count and member list. -/
def mkClusterMarker (m : Marker) (near : List Marker) : ContainerMarker :=
  { base :=
      { id := m.id, name := "Cluster", location := m.location,
        coordinates := meanCoordinate (m :: near),
        status := worstStatus (m :: near),
        temperature := none, humidity := none, battery_level := none },
    isCluster := true,
    clusterSize := some (m :: near).length,
    containers := m :: near }

/-- The greedy single-pass grouping loop, with fuel for structural
termination (the fuel never runs out when it starts at the list length). -/
def clusterLoop : Nat → List Marker → List ContainerMarker
  | _, [] => []
  | 0, _ :: _ => []
  | fuel + 1, m :: rest =>
    let near := rest.filter (fun x => withinClusterDistance m.coordinates x.coordinates)
    if near.isEmpty then
      m.toContainerMarker :: clusterLoop fuel rest
    else
      mkClusterMarker m near ::
        clusterLoop fuel (rest.filter (fun x => !withinClusterDistance m.coordinates x.coordinates))

/-- Modelled from the spec: the Clustering Engine
(`clusterContainerMarkers` in the missing `src/utils/mapOptimizations.ts`):
iterate the markers in input order; for each not yet clustered marker
gather all later unclustered markers within the fixed distance threshold;
a group of at least 2 becomes one Cluster Marker, a group of 1 is emitted
unchanged. -/
def clusterContainerMarkers (l : List Marker) : List ContainerMarker :=
  clusterLoop l.length l

/-! ## Route rows and the Dashboard's map-data processing
(`src/pages/Dashboard.tsx`, `fetchMapData`) -/

/-- Route risk level (the closed set of the `route_analytics` table; `null`
is modelled by `Option`). -/
inductive RiskLevel where
  | low
  | medium
  | high
  deriving DecidableEq, Repr

/-- A raw row of the `route_analytics` table as selected by `fetchMapData`
(origin and destination still in point-literal form). -/
structure RouteRow where
  id : Int
  route_name : String
  origin : String
  destination : String
  total_shipments : Int
  delayed_shipments : Int
  risk_level : Option RiskLevel
  deriving DecidableEq, Repr

/-- The `RouteData` shape consumed by the map view
(`src/components/SriLankaMap.tsx`). -/
structure RouteData where
  id : Int
  name : String
  origin : Coordinate
  destination : Coordinate
  risk_level : Option RiskLevel
  total_shipments : Int
  delayed_shipments : Int
  deriving DecidableEq, Repr

/-- One step of the route mapping in `fetchMapData`
(`src/pages/Dashboard.tsx` lines 108–116): parse the origin and
destination point literals; a `ParseError` escapes (the TypeScript mapper
has no per-route handler, so a thrown error propagates). -/
def processRoute (r : RouteRow) : Except ParseError RouteData := do
  let o ← parsePostgresPoint r.origin
  let d ← parsePostgresPoint r.destination
  pure { id := r.id, name := r.route_name, origin := o.toCoordinate,
         destination := d.toCoordinate, risk_level := r.risk_level,
         total_shipments := r.total_shipments,
         delayed_shipments := r.delayed_shipments }

/-- The whole `routesData.map(...)` of `fetchMapData`: the first
`ParseError` thrown by any route aborts the entire mapping. -/
def processRoutes : List RouteRow → Except ParseError (List RouteData)
  | [] => .ok []
  | r :: rest => do
    let d ← processRoute r
    let ds ← processRoutes rest
    pure (d :: ds)

/-- A raw row of the `containers` table as selected by `fetchMapData`. -/
structure ContainerRow where
  id : Int
  name : String
  location : String
  status : ContainerStatus
  temperature : Option ℚ
  humidity : Option ℚ
  battery_level : Option ℚ
  deriving DecidableEq, Repr

/-- Geocode one container row (`src/pages/Dashboard.tsx` lines 91–105). -/
def processContainer (c : ContainerRow) : Marker :=
  { id := c.id, name := c.name, location := c.location,
    coordinates := geocodeLocation c.location, status := c.status,
    temperature := c.temperature, humidity := c.humidity,
    battery_level := c.battery_level }

/-- The data processing of `fetchMapData` (`src/pages/Dashboard.tsx`
lines 73–126): geocode the container rows, then parse the route rows;
both `setContainers` and `setRoutes` sit after the route mapping inside
one `try` block, so a `ParseError` thrown for any route reaches the
enclosing `catch` and neither containers nor routes are produced
(`none`). -/
def fetchMapData (containerRows : List ContainerRow) (routeRows : List RouteRow) :
    Option (List Marker × List RouteData) :=
  match processRoutes routeRows with
  | .ok rs => some (containerRows.map processContainer, rs)
  | .error _ => none

/-! ## The map view's delay rate (`src/components/SriLankaMap.tsx`
lines 323–330) -/

/-- The route popup's displayed delay rate: under the guard
`total_shipments > 0` it is `Math.round(delayed / total * 100) + "%"`,
otherwise the literal `"0%"` (no division is performed). -/
def delayRateDisplay (r : RouteData) : String :=
  if 0 < r.total_shipments then
    toString (round ((r.delayed_shipments : ℚ) / (r.total_shipments : ℚ) * 100)) ++ "%"
  else "0%"

/-! ## Seeding utility (`src/utils/seedRouteData.ts`) -/

/-- The `sriLankaLocations` table of `src/utils/seedRouteData.ts`, with
each coordinate in its canonical decimal print form (JavaScript prints
`80.2210` as `"80.221"`). -/
def sriLankaLocations : List (String × DecCoord) :=
  [("Colombo", { lat := ⟨false, [6], [9,2,7,1]⟩, lng := ⟨false, [7,9], [8,6,1,2]⟩ }),
   ("Kandy", { lat := ⟨false, [7], [2,9,0,6]⟩, lng := ⟨false, [8,0], [6,3,3,7]⟩ }),
   ("Galle", { lat := ⟨false, [6], [0,5,3,5]⟩, lng := ⟨false, [8,0], [2,2,1]⟩ }),
   ("Jaffna", { lat := ⟨false, [9], [6,6,1,5]⟩, lng := ⟨false, [8,0], [0,2,5,5]⟩ }),
   ("Trincomalee", { lat := ⟨false, [8], [5,8,7,4]⟩, lng := ⟨false, [8,1], [2,1,5,2]⟩ }),
   ("Batticaloa", { lat := ⟨false, [7], [7,1,7]⟩, lng := ⟨false, [8,1], [7]⟩ }),
   ("Negombo", { lat := ⟨false, [7], [2,0,8,1]⟩, lng := ⟨false, [7,9], [8,3,5,2]⟩ }),
   ("Anuradhapura", { lat := ⟨false, [8], [3,1,1,4]⟩, lng := ⟨false, [8,0], [4,0,3,7]⟩ }),
   ("Matara", { lat := ⟨false, [5], [9,4,8,5]⟩, lng := ⟨false, [8,0], [5,3,5,3]⟩ }),
   ("Kurunegala", { lat := ⟨false, [7], [4,8,6,7]⟩, lng := ⟨false, [8,0], [3,6,4,7]⟩ })]

/-- All ordered pairs `(l[i], l[j])` with `i < j`, in the order of the
double loop of `generateRoutes`. -/
def routePairs {α : Type} : List α → List (α × α)
  | [] => []
  | x :: rest => rest.map (fun y => (x, y)) ++ routePairs rest

/-- The deterministic fragment of `generateRoutes`
(`src/utils/seedRouteData.ts` lines 24–65): for every pair of distinct
locations, the route name and the encoded origin and destination points
(`route_name`, `origin`, `destination` of the pushed record; the shipment
counts are `Math.random` and the transit time and risk level go through
floating-point trigonometry, so they stay outside the embedding). -/
def generateRouteRecords : List (String × String × String) :=
  (routePairs sriLankaLocations).map (fun p =>
    (p.1.1 ++ " to " ++ p.2.1, toPostgresPoint p.1.2, toPostgresPoint p.2.2))

/-! ## Concrete fixtures for the scenario properties -/

/-- The spec's cluster scenario: five markers within 0.01 degrees of each
other (spaced 0.002 degrees apart around Colombo), mixed statuses. -/
def scnM1 : Marker := ⟨1, "C1", "Colombo", ⟨693/100, 7986/100⟩, .active, none, none, none⟩

/-- Second scenario marker. -/
def scnM2 : Marker := ⟨2, "C2", "Colombo", ⟨6932/1000, 79862/1000⟩, .warning, none, none, none⟩

/-- Third scenario marker. -/
def scnM3 : Marker := ⟨3, "C3", "Colombo", ⟨6934/1000, 79864/1000⟩, .inactive, none, none, none⟩

/-- Fourth scenario marker. -/
def scnM4 : Marker := ⟨4, "C4", "Colombo", ⟨6936/1000, 79866/1000⟩, .active, none, none, none⟩

/-- Fifth scenario marker. -/
def scnM5 : Marker := ⟨5, "C5", "Colombo", ⟨6938/1000, 79868/1000⟩, .active, none, none, none⟩

/-- A route row whose point literals are both well formed. -/
def goodRow : RouteRow :=
  ⟨1, "Colombo to Kandy", "(79.8612,6.9271)", "(80.6337,7.2906)", 10, 2, some .low⟩

/-- A route row whose origin is a malformed point literal. -/
def badRow : RouteRow :=
  ⟨2, "Broken", "not-a-point", "(80.221,6.0535)", 8, 1, some .high⟩

/-- A second well-formed route row, listed after the malformed one. -/
def goodRow2 : RouteRow :=
  ⟨3, "Galle to Matara", "(80.221,6.0535)", "(80.5353,5.9485)", 5, 0, some .medium⟩

/-- A route row whose origin is well formed but whose destination is a
malformed point literal. -/
def badDestRow : RouteRow :=
  ⟨4, "BrokenDest", "(80.5353,5.9485)", "also-not-a-point", 6, 2, some .medium⟩

/-- A container row accompanying the route fixtures. -/
def goodContainerRow : ContainerRow :=
  ⟨7, "CTR-7", "Colombo", .active, some 4, some 50, some 80⟩

/-- The Colombo coordinate (6.9271, 79.8612) in decimal form. -/
def colomboPoint : DecCoord :=
  { lat := ⟨false, [6], [9,2,7,1]⟩, lng := ⟨false, [7,9], [8,6,1,2]⟩ }

/-- A marker far away from every other fixture marker. -/
def farM1 : Marker := ⟨11, "F1", "a", ⟨0, 0⟩, .active, none, none, none⟩

/-- A second marker far away from every other fixture marker. -/
def farM2 : Marker := ⟨12, "F2", "b", ⟨10, 10⟩, .warning, none, none, none⟩

/-- A route with zero total shipments. -/
def zeroShipRoute : RouteData := ⟨1, "r0", ⟨0, 0⟩, ⟨1, 1⟩, none, 0, 7⟩

/-- A route with 4 total shipments, 1 delayed. -/
def busyRoute : RouteData := ⟨2, "r1", ⟨0, 0⟩, ⟨1, 1⟩, some .low, 4, 1⟩

/-! ## Specification-side predicates -/

/-- The characters of one number of the point pattern: an optional minus
sign, one or more integer digits, optionally a dot followed by one or more
fraction digits. -/
def IsNumChars (cs : List Char) : Prop :=
  ∃ (neg : Bool) (ip fp : List Char),
    ip ≠ [] ∧ (∀ c ∈ ip, isDigitChar c = true) ∧ (∀ c ∈ fp, isDigitChar c = true) ∧
    cs = (if neg then ['-'] else []) ++ ip ++ (if fp = [] then [] else '.' :: fp)

/-- The two-number parenthesized point pattern, with optional surrounding
whitespace: `"(x,y)"` where x and y are decimal numbers. -/
def PointPattern (s : String) : Prop :=
  ∃ (w1 w2 n1 n2 : List Char),
    (∀ c ∈ w1, isWsChar c = true) ∧ (∀ c ∈ w2, isWsChar c = true) ∧
    IsNumChars n1 ∧ IsNumChars n2 ∧
    s.data = w1 ++ '(' :: (n1 ++ ',' :: (n2 ++ ')' :: w2))

/-- A coordinate in valid latitude/longitude range. -/
def validCoordinate (c : Coordinate) : Prop :=
  -90 ≤ c.lat ∧ c.lat ≤ 90 ∧ -180 ≤ c.lng ∧ c.lng ≤ 180

instance (c : Coordinate) : Decidable (validCoordinate c) := by
  unfold validCoordinate; infer_instance

/-! ## Lemmas about digits and number printing -/

theorem digitChar_spec : ∀ d < 10,
    isDigitChar (digitChar d) = true ∧ isWsChar (digitChar d) = false ∧
    digitChar d ≠ '-' ∧ digitChar d ≠ '.' ∧ digitChar d ≠ ',' ∧
    digitChar d ≠ '(' ∧ digitChar d ≠ ')' ∧ digitVal (digitChar d) = d := by
  decide

theorem parseDigits_nil_of_head (cs : List Char)
    (h : ∀ c, cs.head? = some c → isDigitChar c = false) :
    parseDigits cs = ([], cs) := by
  cases cs with
  | nil => rfl
  | cons c t => simp [parseDigits, h c rfl]

theorem parseDigits_print (ds : List Nat) (hds : ∀ d ∈ ds, d < 10)
    (rest : List Char) (hrest : ∀ c, rest.head? = some c → isDigitChar c = false) :
    parseDigits (ds.map digitChar ++ rest) = (ds, rest) := by
  induction ds with
  | nil => simpa using parseDigits_nil_of_head rest hrest
  | cons d ds ih =>
    have hd := digitChar_spec d (hds d (by simp))
    have ih' := ih (fun x hx => hds x (by simp [hx]))
    simp [parseDigits, hd.1, ih', hd.2.2.2.2.2.2.2]

theorem parseNumber_print (n : DecNum) (hn : n.WF) (rest : List Char)
    (hrest : ∀ c, rest.head? = some c → isDigitChar c = false ∧ c ≠ '.' ∧ c ≠ '-') :
    parseNumber (printDecNum n ++ rest) = some (n, rest) := by
  obtain ⟨hip, hipd, hfpd⟩ := hn
  have hheadr : rest.head? ≠ some '.' := fun hc => (hrest '.' hc).2.1 rfl
  have hrd : ∀ c, rest.head? = some c → isDigitChar c = false := fun c hc => (hrest c hc).1
  obtain ⟨neg, ip, fp⟩ := n
  simp only at hip hipd hfpd
  obtain ⟨d0, ip', rfl⟩ : ∃ d0 ip', ip = d0 :: ip' := by
    cases ip with
    | nil => exact absurd rfl hip
    | cons a b => exact ⟨a, b, rfl⟩
  have hd0 := digitChar_spec d0 (hipd d0 (by simp))
  by_cases hfp : fp = []
  · subst hfp
    have hpd := parseDigits_print (d0 :: ip') hipd rest hrd
    simp only [List.map_cons, List.cons_append] at hpd
    cases neg
    · have h1 : printDecNum ⟨false, d0 :: ip', []⟩ ++ rest
          = (d0 :: ip').map digitChar ++ rest := by simp [printDecNum]
      rw [h1]
      simp [parseNumber, hpd, hd0.2.2.1, hheadr]
    · have h1 : printDecNum ⟨true, d0 :: ip', []⟩ ++ rest
          = '-' :: ((d0 :: ip').map digitChar ++ rest) := by simp [printDecNum]
      rw [h1]
      simp [parseNumber, hpd, hheadr]
  · have hpd2 := parseDigits_print fp hfpd rest hrd
    have hpd := parseDigits_print (d0 :: ip') hipd ('.' :: (fp.map digitChar ++ rest))
      (by intro c hc; simp only [List.head?_cons, Option.some.injEq] at hc; subst hc; decide)
    simp only [List.map_cons, List.cons_append] at hpd
    cases neg
    · have h1 : printDecNum ⟨false, d0 :: ip', fp⟩ ++ rest
          = (d0 :: ip').map digitChar ++ ('.' :: (fp.map digitChar ++ rest)) := by
        simp [printDecNum, hfp]
      rw [h1]
      simp [parseNumber, hpd, hd0.2.2.1, hpd2, hfp]
    · have h1 : printDecNum ⟨true, d0 :: ip', fp⟩ ++ rest
          = '-' :: ((d0 :: ip').map digitChar ++ ('.' :: (fp.map digitChar ++ rest))) := by
        simp [printDecNum, hfp]
      rw [h1]
      simp [parseNumber, hpd, hpd2, hfp]

/-! ## Trimming lemmas -/

theorem trimChars_eq_self (a b : Char) (l : List Char)
    (ha : isWsChar a = false) (hb : isWsChar b = false) :
    trimChars (a :: (l ++ [b])) = a :: (l ++ [b]) := by
  unfold trimChars
  have h1 : List.dropWhile isWsChar (a :: (l ++ [b])) = a :: (l ++ [b]) := by
    simp [List.dropWhile_cons, ha]
  rw [h1]
  have h2 : (a :: (l ++ [b])).reverse = b :: (l.reverse ++ [a]) := by simp
  rw [h2]
  simp [List.dropWhile_cons, hb]

/-! ## The exact round trip of the Point Codec -/

theorem decode_print (c : DecCoord) (h : c.WF) :
    decodePointChars ('(' :: (printDecNum c.lng ++ ',' :: (printDecNum c.lat ++ [')'])))
      = some c := by
  obtain ⟨hlat, hlng⟩ := h
  have hshape : '(' :: (printDecNum c.lng ++ ',' :: (printDecNum c.lat ++ [')']))
      = '(' :: ((printDecNum c.lng ++ ',' :: printDecNum c.lat) ++ [')']) := by simp
  have htrim : trimChars ('(' :: (printDecNum c.lng ++ ',' :: (printDecNum c.lat ++ [')'])))
      = '(' :: (printDecNum c.lng ++ ',' :: (printDecNum c.lat ++ [')'])) := by
    rw [hshape]
    exact trimChars_eq_self '(' ')' _ (by decide) (by decide)
  have hp1 := parseNumber_print c.lng hlng (',' :: (printDecNum c.lat ++ [')']))
    (by intro x hx; simp only [List.head?_cons, Option.some.injEq] at hx; subst hx; decide)
  have hp2 := parseNumber_print c.lat hlat [')']
    (by intro x hx; simp only [List.head?_cons, Option.some.injEq] at hx; subst hx; decide)
  simp [decodePointChars, htrim, hp1, hp2]

theorem parse_toPostgresPoint (c : DecCoord) (h : c.WF) :
    parsePostgresPoint (toPostgresPoint c) = .ok c := by
  have hd : (toPostgresPoint c).data
      = '(' :: (printDecNum c.lng ++ ',' :: (printDecNum c.lat ++ [')'])) := rfl
  unfold parsePostgresPoint
  rw [hd, decode_print c h]

/-- C1. Point Codec round-trip: for every finite Coordinate `c` (a
well-formed decimal pair), decoding the string produced by encoding `c`
succeeds and returns `c` — latitude to latitude and longitude to
longitude — within a tolerance of 1e-6 (the round trip is in fact
exact). -/
theorem C1_point_codec_roundtrip (c : DecCoord) (h : c.WF) :
    ∃ c' : DecCoord, parsePostgresPoint (toPostgresPoint c) = .ok c' ∧
      |c'.lat.toRat - c.lat.toRat| ≤ 1/1000000 ∧
      |c'.lng.toRat - c.lng.toRat| ≤ 1/1000000 :=
  ⟨c, parse_toPostgresPoint c h, by norm_num, by norm_num⟩

/-- Witness for C1: the round trip at the concrete Colombo coordinate. -/
theorem C1_point_codec_roundtrip_witness :
    ∃ c' : DecCoord, parsePostgresPoint (toPostgresPoint colomboPoint) = .ok c' ∧
      |c'.lat.toRat - colomboPoint.lat.toRat| ≤ 1/1000000 ∧
      |c'.lng.toRat - colomboPoint.lng.toRat| ≤ 1/1000000 :=
  C1_point_codec_roundtrip colomboPoint (by decide)

/-! ## Soundness of the point parser: success implies the pattern -/

theorem parseDigits_split (cs : List Char) :
    ∃ pre, cs = pre ++ (parseDigits cs).2 ∧ (∀ c ∈ pre, isDigitChar c = true) ∧
      (pre = [] ↔ (parseDigits cs).1 = []) := by
  induction cs with
  | nil => exact ⟨[], by simp [parseDigits]⟩
  | cons c t ih =>
    by_cases hc : isDigitChar c
    · obtain ⟨pre, h1, h2, h3⟩ := ih
      refine ⟨c :: pre, ?_, ?_, ?_⟩
      · simpa [parseDigits, hc] using h1
      · intro x hx
        rcases List.mem_cons.1 hx with rfl | hx
        · exact hc
        · exact h2 x hx
      · simp [parseDigits, hc]
    · exact ⟨[], by simp [parseDigits, hc]⟩

theorem parseNumber_sound (cs : List Char) (n : DecNum) (rest : List Char)
    (h : parseNumber cs = some (n, rest)) :
    ∃ num, cs = num ++ rest ∧ IsNumChars num := by
  unfold parseNumber at h
  by_cases hm : cs.head? = some '-'
  all_goals simp only [hm, if_pos, if_neg, if_true, if_false, reduceIte] at h
  case pos =>
    obtain ⟨t, rfl⟩ : ∃ t, cs = '-' :: t := by
      cases cs with
      | nil => simp at hm
      | cons a t =>
        simp only [List.head?_cons, Option.some.injEq] at hm
        exact ⟨t, by rw [hm]⟩
    simp only [List.tail_cons] at h
    obtain ⟨pre1, he1, hd1, hiff1⟩ := parseDigits_split t
    by_cases hnil : (parseDigits t).1 = []
    · simp [hnil] at h
    rw [if_neg hnil] at h
    have hpre1 : pre1 ≠ [] := fun hp => hnil (hiff1.1 hp)
    by_cases hdot : (parseDigits t).2.head? = some '.'
    · rw [if_pos hdot] at h
      obtain ⟨t2, he2⟩ : ∃ t2, (parseDigits t).2 = '.' :: t2 := by
        cases hx : (parseDigits t).2 with
        | nil => rw [hx] at hdot; simp at hdot
        | cons a b =>
          rw [hx] at hdot
          simp only [List.head?_cons, Option.some.injEq] at hdot
          exact ⟨b, by rw [hdot]⟩
      by_cases hnil2 : (parseDigits (parseDigits t).2.tail).1 = []
      · simp [hnil2] at h
      rw [if_neg hnil2] at h
      simp only [Option.some.injEq, Prod.mk.injEq] at h
      obtain ⟨hn, hrest⟩ := h
      obtain ⟨pre2, he3, hd2, hiff2⟩ := parseDigits_split (parseDigits t).2.tail
      have hpre2 : pre2 ≠ [] := fun hp => hnil2 (hiff2.1 hp)
      refine ⟨'-' :: (pre1 ++ '.' :: pre2), ?_, ?_⟩
      · have hrest2 : (parseDigits t2).2 = rest := by
          have h5 := hrest
          rw [he2] at h5
          simpa using h5
        have ht2 : t2 = pre2 ++ rest := by
          have h4 := he3
          rw [he2] at h4
          simp only [List.tail_cons] at h4
          rw [hrest2] at h4
          exact h4
        conv_lhs => rw [he1, he2, ht2]
        simp
      · refine ⟨true, pre1, pre2, hpre1, hd1, hd2, ?_⟩
        simp [hpre2]
    · rw [if_neg hdot] at h
      simp only [Option.some.injEq, Prod.mk.injEq] at h
      obtain ⟨hn, hrest⟩ := h
      refine ⟨'-' :: pre1, ?_, ?_⟩
      · conv_lhs => rw [he1, hrest]
        simp
      · exact ⟨true, pre1, [], hpre1, hd1, by simp, by simp⟩
  case neg =>
    obtain ⟨pre1, he1, hd1, hiff1⟩ := parseDigits_split cs
    by_cases hnil : (parseDigits cs).1 = []
    · simp [hnil] at h
    rw [if_neg hnil] at h
    have hpre1 : pre1 ≠ [] := fun hp => hnil (hiff1.1 hp)
    by_cases hdot : (parseDigits cs).2.head? = some '.'
    · rw [if_pos hdot] at h
      obtain ⟨t2, he2⟩ : ∃ t2, (parseDigits cs).2 = '.' :: t2 := by
        cases hx : (parseDigits cs).2 with
        | nil => rw [hx] at hdot; simp at hdot
        | cons a b =>
          rw [hx] at hdot
          simp only [List.head?_cons, Option.some.injEq] at hdot
          exact ⟨b, by rw [hdot]⟩
      by_cases hnil2 : (parseDigits (parseDigits cs).2.tail).1 = []
      · simp [hnil2] at h
      rw [if_neg hnil2] at h
      simp only [Option.some.injEq, Prod.mk.injEq] at h
      obtain ⟨hn, hrest⟩ := h
      obtain ⟨pre2, he3, hd2, hiff2⟩ := parseDigits_split (parseDigits cs).2.tail
      have hpre2 : pre2 ≠ [] := fun hp => hnil2 (hiff2.1 hp)
      refine ⟨pre1 ++ '.' :: pre2, ?_, ?_⟩
      · have hrest2 : (parseDigits t2).2 = rest := by
          have h5 := hrest
          rw [he2] at h5
          simpa using h5
        have ht2 : t2 = pre2 ++ rest := by
          have h4 := he3
          rw [he2] at h4
          simp only [List.tail_cons] at h4
          rw [hrest2] at h4
          exact h4
        conv_lhs => rw [he1, he2, ht2]
        simp
      · refine ⟨false, pre1, pre2, hpre1, hd1, hd2, ?_⟩
        simp [hpre2]
    · rw [if_neg hdot] at h
      simp only [Option.some.injEq, Prod.mk.injEq] at h
      obtain ⟨hn, hrest⟩ := h
      refine ⟨pre1, ?_, ?_⟩
      · conv_lhs => rw [he1, hrest]
      · exact ⟨false, pre1, [], hpre1, hd1, by simp, by simp⟩

theorem trimChars_split (l : List Char) :
    ∃ w1 w2, (∀ c ∈ w1, isWsChar c = true) ∧ (∀ c ∈ w2, isWsChar c = true) ∧
      l = w1 ++ (trimChars l ++ w2) := by
  refine ⟨l.takeWhile isWsChar, ((l.dropWhile isWsChar).reverse.takeWhile isWsChar).reverse,
    ?_, ?_, ?_⟩
  · intro c hc
    exact List.mem_takeWhile_imp hc
  · intro c hc
    rw [List.mem_reverse] at hc
    exact List.mem_takeWhile_imp hc
  · have h2 := congrArg List.reverse
      (List.takeWhile_append_dropWhile isWsChar (l.dropWhile isWsChar).reverse)
    simp only [List.reverse_append, List.reverse_reverse] at h2
    have h3 : l.dropWhile isWsChar
        = trimChars l ++ ((l.dropWhile isWsChar).reverse.takeWhile isWsChar).reverse := by
      rw [trimChars]
      exact h2.symm
    conv_lhs => rw [← List.takeWhile_append_dropWhile isWsChar l, h3]

theorem decodePointChars_sound (cs : List Char) (c : DecCoord)
    (h : decodePointChars cs = some c) :
    ∃ w1 w2 n1 n2, (∀ x ∈ w1, isWsChar x = true) ∧ (∀ x ∈ w2, isWsChar x = true) ∧
      IsNumChars n1 ∧ IsNumChars n2 ∧
      cs = w1 ++ '(' :: (n1 ++ ',' :: (n2 ++ ')' :: w2)) := by
  unfold decodePointChars at h
  by_cases h1 : (trimChars cs).head? = some '('
  swap
  · simp [h1] at h
  rw [if_pos h1] at h
  obtain ⟨t1, he1⟩ : ∃ t1, trimChars cs = '(' :: t1 := by
    cases hx : trimChars cs with
    | nil => rw [hx] at h1; simp at h1
    | cons a b =>
      rw [hx] at h1
      simp only [List.head?_cons, Option.some.injEq] at h1
      exact ⟨b, by rw [h1]⟩
  cases hp1 : parseNumber (trimChars cs).tail with
  | none => rw [hp1] at h; simp at h
  | some pr1 =>
    obtain ⟨x, r1⟩ := pr1
    rw [hp1] at h
    dsimp only at h
    by_cases h2 : r1.head? = some ','
    swap
    · simp [h2] at h
    rw [if_pos h2] at h
    obtain ⟨t2, he2⟩ : ∃ t2, r1 = ',' :: t2 := by
      cases hx : r1 with
      | nil => rw [hx] at h2; simp at h2
      | cons a b =>
        rw [hx] at h2
        simp only [List.head?_cons, Option.some.injEq] at h2
        exact ⟨b, by rw [h2]⟩
    cases hp2 : parseNumber r1.tail with
    | none => rw [hp2] at h; simp at h
    | some pr2 =>
      obtain ⟨y, r2⟩ := pr2
      rw [hp2] at h
      dsimp only at h
      by_cases h3 : r2 = [')']
      swap
      · simp [h3] at h
      obtain ⟨n1, hn1, hnum1⟩ := parseNumber_sound _ _ _ hp1
      obtain ⟨n2, hn2, hnum2⟩ := parseNumber_sound _ _ _ hp2
      obtain ⟨w1, w2, hw1, hw2, hsplit⟩ := trimChars_split cs
      refine ⟨w1, w2, n1, n2, hw1, hw2, hnum1, hnum2, ?_⟩
      have htail : (trimChars cs).tail = t1 := by rw [he1]; rfl
      have ht1 : t1 = n1 ++ (',' :: (n2 ++ [')'])) := by
        rw [← htail, hn1, he2]
        have ht2 : t2 = n2 ++ [')'] := by
          have h4 := hn2
          rw [he2] at h4
          simp only [List.tail_cons] at h4
          rw [h3] at h4
          exact h4
        rw [ht2]
      conv_lhs => rw [hsplit, he1, ht1]
      simp

theorem parsePostgresPoint_ok_pattern (s : String) (c : DecCoord)
    (h : parsePostgresPoint s = .ok c) : PointPattern s := by
  unfold parsePostgresPoint at h
  cases hd : decodePointChars s.data with
  | none => rw [hd] at h; simp at h
  | some c2 =>
    obtain ⟨w1, w2, n1, n2, hw1, hw2, hn1, hn2, he⟩ := decodePointChars_sound _ _ hd
    exact ⟨w1, w2, n1, n2, hw1, hw2, hn1, hn2, he⟩

theorem pointPattern_lparen (s : String) (h : PointPattern s) : '(' ∈ s.data := by
  obtain ⟨w1, w2, n1, n2, _, _, _, _, he⟩ := h
  rw [he]
  simp

/-- C3. Point Codec decode signals a ParseError for every input string not
matching the two-number parenthesized pattern (for example
`"not-a-point"`), accepts optional surrounding whitespace, and on a
well-formed input maps the first number to longitude and the second to
latitude: `decode("(79.86,6.93)")` returns the coordinate with
lng = 79.86 and lat = 6.93. -/
theorem C3_decode_failure :
    (∀ s : String, ¬ PointPattern s → ∃ e, parsePostgresPoint s = .error e) ∧
    parsePostgresPoint "not-a-point" = .error (.invalidPointString "not-a-point") ∧
    (∃ c : DecCoord, parsePostgresPoint "(79.86,6.93)" = .ok c ∧
      c.lng.toRat = 7986/100 ∧ c.lat.toRat = 693/100) ∧
    (∃ c : DecCoord, parsePostgresPoint "  (79.86,6.93)  " = .ok c ∧
      c.lng.toRat = 7986/100 ∧ c.lat.toRat = 693/100) := by
  refine ⟨?_, by decide,
    ⟨⟨⟨false, [6], [9,3]⟩, ⟨false, [7,9], [8,6]⟩⟩, by decide, by decide, by decide⟩,
    ⟨⟨⟨false, [6], [9,3]⟩, ⟨false, [7,9], [8,6]⟩⟩, by decide, by decide, by decide⟩⟩
  intro s hp
  cases hd : parsePostgresPoint s with
  | error e => exact ⟨e, rfl⟩
  | ok c => exact absurd (parsePostgresPoint_ok_pattern s c hd) hp

/-- Witness for C3: the non-matching input `"not-a-point"` (it contains no
opening parenthesis, so it cannot match the pattern) is rejected. -/
theorem C3_decode_failure_witness :
    ¬ PointPattern "not-a-point" ∧ ∃ e, parsePostgresPoint "not-a-point" = .error e :=
  have hnp : ¬ PointPattern "not-a-point" := fun h =>
    absurd (pointPattern_lparen _ h) (by decide)
  ⟨hnp, C3_decode_failure.1 "not-a-point" hnp⟩

/-- C9. Point Codec encode formats every Coordinate as the string
`"(longitude,latitude)"` — the x position holds the longitude and the y
position holds the latitude, never swapped (decoding the encoded string
gives the longitude back from the x position), as the seeding utility's
first generated route record also shows. -/
theorem C9_encode_format :
    (∀ c : DecCoord, (toPostgresPoint c).data
      = '(' :: (printDecNum c.lng ++ ',' :: (printDecNum c.lat ++ [')']))) ∧
    (∀ c : DecCoord, c.WF →
      ∃ c' : DecCoord, parsePostgresPoint (toPostgresPoint c) = .ok c' ∧
        c'.lng = c.lng ∧ c'.lat = c.lat) ∧
    generateRouteRecords.head? =
      some ("Colombo to Kandy", "(79.8612,6.9271)", "(80.6337,7.2906)") :=
  ⟨fun _ => rfl, fun c h => ⟨c, parse_toPostgresPoint c h, rfl, rfl⟩, by decide⟩

/-- Witness for C9: decoding the encoding of the Colombo coordinate
recovers the longitude from the x position. -/
theorem C9_encode_format_witness :
    ∃ c' : DecCoord, parsePostgresPoint (toPostgresPoint colomboPoint) = .ok c' ∧
      c'.lng = colomboPoint.lng ∧ c'.lat = colomboPoint.lat :=
  C9_encode_format.2.1 colomboPoint (by decide)

/-! ## Geocoder theorems -/

theorem namedLocations_valid : ∀ e ∈ namedLocations, validCoordinate e.2 := by decide

theorem fallbackCoordinate_valid (s : String) :
    validCoordinate (fallbackCoordinate s) := by
  have hm1 : charCodeSum s % 200 < 200 := Nat.mod_lt _ (by norm_num)
  have hm2 : charCodeSum s * 7 % 200 < 200 := Nat.mod_lt _ (by norm_num)
  have h1 : ((charCodeSum s % 200 : Nat) : ℚ) ≤ 199 := by exact_mod_cast Nat.le_of_lt_succ hm1
  have h2 : (0 : ℚ) ≤ ((charCodeSum s % 200 : Nat) : ℚ) := by positivity
  have h3 : ((charCodeSum s * 7 % 200 : Nat) : ℚ) ≤ 199 := by
    exact_mod_cast Nat.le_of_lt_succ hm2
  have h4 : (0 : ℚ) ≤ ((charCodeSum s * 7 % 200 : Nat) : ℚ) := by positivity
  unfold validCoordinate fallbackCoordinate GEOCODE_FALLBACK_CENTER
  refine ⟨?_, ?_, ?_, ?_⟩ <;> dsimp only <;> nlinarith

/-- C4. The Geocoder is total: for every input string — including the
empty string and whitespace-only strings, which take the fallback path —
`geocodeLocation` returns a valid Coordinate; it never fails, because
unresolvable names take the deterministic fallback path. -/
theorem C4_geocoder_total :
    (∀ s : String, validCoordinate (geocodeLocation s)) ∧
    geocodeLocation "" = fallbackCoordinate "" ∧
    geocodeLocation " \t " = fallbackCoordinate " \t " := by
  refine ⟨?_, by decide, by decide⟩
  intro s
  unfold geocodeLocation
  by_cases hq : trimChars (lowerChars s) = []
  · simp only [hq, if_pos, reduceIte]
    exact fallbackCoordinate_valid s
  · rw [if_neg hq]
    cases hf : namedLocations.find? (fun e =>
        containsList (trimChars (lowerChars s)) (lowerChars e.1) ||
        containsList (lowerChars e.1) (trimChars (lowerChars s))) with
    | none => exact fallbackCoordinate_valid s
    | some e => exact namedLocations_valid e (List.mem_of_find?_eq_some hf)

/-- C5. The Geocoder is deterministic: equal inputs give identical
Coordinates (the model is a pure function, per the spec's
"synchronous and side-effect-free"); `geocodeLocation "Colombo"` is the
table's fixed Colombo coordinate on every call, and
`geocodeLocation "Nowhereville"` is a fixed fallback coordinate distinct
from Colombo's. -/
theorem C5_geocoder_deterministic :
    (∀ s t : String, s = t → geocodeLocation s = geocodeLocation t) ∧
    geocodeLocation "Colombo" = ⟨69271/10000, 798612/10000⟩ ∧
    geocodeLocation "Nowhereville" = fallbackCoordinate "Nowhereville" ∧
    geocodeLocation "Nowhereville" ≠ geocodeLocation "Colombo" :=
  ⟨fun _ _ h => by rw [h], by decide, by decide, by decide⟩

/-- Witness for C5: determinism applied at the concrete input
`"Colombo"`. -/
theorem C5_geocoder_deterministic_witness :
    geocodeLocation "Colombo" = geocodeLocation "Colombo" :=
  C5_geocoder_deterministic.1 "Colombo" "Colombo" rfl

/-! ## Clustering theorems -/

/-- C6. The clustering decision gate: false whenever the count is at most
the count threshold (any zoom), false whenever the zoom is at least the
zoom threshold (any count), and true exactly when the count exceeds the
count threshold and the zoom is below the zoom threshold — both
thresholds fixed constants. -/
theorem C6_clustering_gate (count : Nat) (zoom : Int) :
    (count ≤ CLUSTER_COUNT_THRESHOLD → shouldApplyClustering count zoom = false) ∧
    (CLUSTER_ZOOM_THRESHOLD ≤ zoom → shouldApplyClustering count zoom = false) ∧
    (shouldApplyClustering count zoom = true ↔
      CLUSTER_COUNT_THRESHOLD < count ∧ zoom < CLUSTER_ZOOM_THRESHOLD) := by
  have hiff : shouldApplyClustering count zoom = true ↔
      CLUSTER_COUNT_THRESHOLD < count ∧ zoom < CLUSTER_ZOOM_THRESHOLD := by
    simp [shouldApplyClustering]
  refine ⟨fun h => ?_, fun h => ?_, hiff⟩
  · cases hb : shouldApplyClustering count zoom with
    | false => rfl
    | true =>
      have h2 := hiff.1 hb
      exact absurd h2.1 (not_lt.2 h)
  · cases hb : shouldApplyClustering count zoom with
    | false => rfl
    | true =>
      have h2 := hiff.1 hb
      exact absurd h2.2 (not_lt.2 h)

/-- Witness for C6 at concrete counts and zooms: 2 markers never cluster,
zoom 7 never clusters, 10 markers at zoom 2 do. -/
theorem C6_clustering_gate_witness :
    shouldApplyClustering 2 0 = false ∧ shouldApplyClustering 10 7 = false ∧
      shouldApplyClustering 10 2 = true :=
  ⟨(C6_clustering_gate 2 0).1 (by decide), (C6_clustering_gate 10 7).2.1 (by decide),
    (C6_clustering_gate 10 2).2.2.mpr (by decide)⟩

theorem clusterLoop_fuel (f1 f2 : Nat) (l : List Marker)
    (h1 : l.length ≤ f1) (h2 : l.length ≤ f2) :
    clusterLoop f1 l = clusterLoop f2 l := by
  induction f1 generalizing f2 l with
  | zero =>
    cases l with
    | nil => cases f2 <;> rfl
    | cons m rest => simp at h1
  | succ f ih =>
    cases l with
    | nil => cases f2 <;> rfl
    | cons m rest =>
      cases f2 with
      | zero => simp at h2
      | succ g =>
        simp only [List.length_cons, Nat.succ_le_succ_iff] at h1 h2
        simp only [clusterLoop]
        by_cases hne : (rest.filter
            (fun x => withinClusterDistance m.coordinates x.coordinates)).isEmpty
        · rw [if_pos hne, if_pos hne, ih g rest h1 h2]
        · rw [if_neg hne, if_neg hne]
          have hlen := List.length_filter_le
            (fun x => !withinClusterDistance m.coordinates x.coordinates) rest
          rw [ih g _ (le_trans hlen h1) (le_trans hlen h2)]

theorem clusterLoop_eq (fuel : Nat) (l : List Marker) (h : l.length ≤ fuel) :
    clusterLoop fuel l = clusterContainerMarkers l :=
  clusterLoop_fuel fuel l.length l h le_rfl

/-- C8. If every pair of markers is farther apart than the fixed distance
threshold, the Clustering Engine returns the list unchanged: the same
markers in the same order, with no Cluster Markers introduced. -/
theorem C8_no_cluster_when_far (l : List Marker)
    (h : l.Pairwise (fun a b => withinClusterDistance a.coordinates b.coordinates = false)) :
    clusterContainerMarkers l = l.map Marker.toContainerMarker := by
  induction l with
  | nil => rfl
  | cons m rest ih =>
    rw [List.pairwise_cons] at h
    obtain ⟨hm, hrest⟩ := h
    have hnear : rest.filter (fun x => withinClusterDistance m.coordinates x.coordinates) = [] := by
      rw [List.filter_eq_nil_iff]
      intro a ha
      simp [hm a ha]
    unfold clusterContainerMarkers
    simp only [List.length_cons, clusterLoop, hnear, List.isEmpty_nil, if_true]
    rw [clusterLoop_eq rest.length rest le_rfl, ih hrest]
    rfl

/-- Witness for C8: two markers more than the threshold apart come back
unchanged. -/
theorem C8_no_cluster_when_far_witness :
    clusterContainerMarkers [farM1, farM2] =
      [farM1.toContainerMarker, farM2.toContainerMarker] := by
  have hp : [farM1, farM2].Pairwise
      (fun a b => withinClusterDistance a.coordinates b.coordinates = false) := by decide
  simpa using C8_no_cluster_when_far [farM1, farM2] hp

/-- C7. Greedy grouping: a gathered group of at least 2 members is emitted
as exactly one Cluster Marker whose coordinate is the arithmetic mean of
the member coordinates, whose status is the most severe member status
(warning and inactive dominate active, in that priority, per
`worstStatus`), and which carries the member count and member list; a
group of 1 is emitted unchanged. In the spec's scenario — 5 markers
within 0.01 degrees at zoom 3 with the thresholds 3 and 5 — clustering
activates and exactly one Cluster Marker with `clusterSize = 5` and a
member list of length 5 is returned. -/
theorem C7_cluster_marker_shape :
    (∀ (m : Marker) (rest : List Marker),
      (rest.filter (fun x => withinClusterDistance m.coordinates x.coordinates) ≠ [] →
        clusterContainerMarkers (m :: rest) =
          mkClusterMarker m
              (rest.filter (fun x => withinClusterDistance m.coordinates x.coordinates)) ::
            clusterContainerMarkers
              (rest.filter (fun x => !withinClusterDistance m.coordinates x.coordinates))) ∧
      (rest.filter (fun x => withinClusterDistance m.coordinates x.coordinates) = [] →
        clusterContainerMarkers (m :: rest) =
          m.toContainerMarker :: clusterContainerMarkers rest)) ∧
    (∀ (m : Marker) (near : List Marker),
      (mkClusterMarker m near).base.coordinates = meanCoordinate (m :: near) ∧
      (mkClusterMarker m near).base.status = worstStatus (m :: near) ∧
      (mkClusterMarker m near).isCluster = true ∧
      (mkClusterMarker m near).clusterSize = some (m :: near).length ∧
      (mkClusterMarker m near).containers = m :: near) ∧
    (shouldApplyClustering 5 3 = true ∧
      clusterContainerMarkers [scnM1, scnM2, scnM3, scnM4, scnM5] =
        [mkClusterMarker scnM1 [scnM2, scnM3, scnM4, scnM5]] ∧
      (mkClusterMarker scnM1 [scnM2, scnM3, scnM4, scnM5]).clusterSize = some 5 ∧
      (mkClusterMarker scnM1 [scnM2, scnM3, scnM4, scnM5]).containers.length = 5) := by
  refine ⟨?_, fun m near => ⟨rfl, rfl, rfl, rfl, rfl⟩, by decide, by decide, by decide, by decide⟩
  intro m rest
  constructor
  · intro hne
    unfold clusterContainerMarkers
    simp only [List.length_cons, clusterLoop]
    rw [if_neg (by simpa [List.isEmpty_iff] using hne)]
    congr 1
    exact clusterLoop_eq _ _ (List.length_filter_le _ _)
  · intro hnil
    unfold clusterContainerMarkers
    simp only [List.length_cons, clusterLoop, hnil, List.isEmpty_nil, if_true]

/-- Witness for C7: the grouping step applied to the five scenario
markers (the four others are within threshold of the first). -/
theorem C7_cluster_marker_shape_witness :
    clusterContainerMarkers [scnM1, scnM2, scnM3, scnM4, scnM5] =
      mkClusterMarker scnM1
          ([scnM2, scnM3, scnM4, scnM5].filter
            (fun x => withinClusterDistance scnM1.coordinates x.coordinates)) ::
        clusterContainerMarkers
          ([scnM2, scnM3, scnM4, scnM5].filter
            (fun x => !withinClusterDistance scnM1.coordinates x.coordinates)) :=
  (C7_cluster_marker_shape.1 scnM1 [scnM2, scnM3, scnM4, scnM5]).1 (by decide)

/-! ## Dashboard route processing (C2) and the delay rate (C10) -/

theorem processRoutes_error (rows : List RouteRow) (r : RouteRow) (hr : r ∈ rows)
    (e : ParseError) (he : processRoute r = .error e) :
    ∃ e2, processRoutes rows = .error e2 := by
  induction rows with
  | nil => cases hr
  | cons a rest ih =>
    rcases List.mem_cons.1 hr with rfl | hmem
    · exact ⟨e, by unfold processRoutes; rw [he]; rfl⟩
    · cases hp : processRoute a with
      | error e3 => exact ⟨e3, by unfold processRoutes; rw [hp]; rfl⟩
      | ok d =>
        obtain ⟨e2, he2⟩ := ih hmem
        exact ⟨e2, by unfold processRoutes; rw [hp, he2]; rfl⟩

/-- C2, corrected. When Point Codec decode signals a ParseError for
either of one route's point strings (its origin or its destination), the
Dashboard's `fetchMapData` does NOT substitute a fallback: the error
escapes the route mapping (which has no per-route handler) into the
surrounding catch, the whole mapping yields an error, and neither the
remaining routes nor the containers are produced for rendering. -/
theorem C2_parse_error_aborts_fetch (rows : List RouteRow) (r : RouteRow)
    (hr : r ∈ rows) (e : ParseError)
    (he : parsePostgresPoint r.origin = .error e ∨
      parsePostgresPoint r.destination = .error e) :
    (∃ e2, processRoutes rows = .error e2) ∧
    ∀ cs : List ContainerRow, fetchMapData cs rows = none := by
  have hpr : ∃ e1, processRoute r = .error e1 := by
    rcases he with he | he
    · exact ⟨e, by unfold processRoute; rw [he]; rfl⟩
    · cases ho : parsePostgresPoint r.origin with
      | error e1 => exact ⟨e1, by unfold processRoute; rw [ho]; rfl⟩
      | ok o => exact ⟨e, by unfold processRoute; rw [ho, he]; rfl⟩
  obtain ⟨e1, hpr⟩ := hpr
  obtain ⟨e2, he2⟩ := processRoutes_error rows r hr e1 hpr
  refine ⟨⟨e2, he2⟩, fun cs => ?_⟩
  unfold fetchMapData
  rw [he2]

/-- Witness for C2's corrected statement, covering both trigger cases: a
route with a malformed origin and a route with a malformed destination
each abort the whole fetch. -/
theorem C2_parse_error_aborts_fetch_witness :
    ((∃ e2, processRoutes [goodRow, badRow, goodRow2] = .error e2) ∧
      ∀ cs : List ContainerRow, fetchMapData cs [goodRow, badRow, goodRow2] = none) ∧
    ((∃ e2, processRoutes [goodRow, badDestRow, goodRow2] = .error e2) ∧
      ∀ cs : List ContainerRow, fetchMapData cs [goodRow, badDestRow, goodRow2] = none) :=
  ⟨C2_parse_error_aborts_fetch [goodRow, badRow, goodRow2] badRow (by decide)
      (.invalidPointString "not-a-point") (Or.inl (by decide)),
    C2_parse_error_aborts_fetch [goodRow, badDestRow, goodRow2] badDestRow (by decide)
      (.invalidPointString "also-not-a-point") (Or.inr (by decide))⟩

/-- C2 counterexample to the claim as stated: in a fetched route list
where exactly one route's point string is malformed, the other
(well-formed) routes are NOT produced — the whole route mapping errors
and the fetch yields nothing, rather than substituting a fallback
coordinate for the malformed route and continuing. -/
theorem C2_no_fallback_counterexample :
    parsePostgresPoint badRow.origin = .error (.invalidPointString "not-a-point") ∧
    (∃ c, parsePostgresPoint goodRow.origin = .ok c) ∧
    (∃ c, parsePostgresPoint goodRow2.origin = .ok c) ∧
    processRoutes [goodRow, badRow, goodRow2] = .error (.invalidPointString "not-a-point") ∧
    fetchMapData [goodContainerRow] [goodRow, badRow, goodRow2] = none := by
  refine ⟨by decide, ⟨⟨⟨false, [6], [9,2,7,1]⟩, ⟨false, [7,9], [8,6,1,2]⟩⟩, by decide⟩,
    ⟨⟨⟨false, [6], [0,5,3,5]⟩, ⟨false, [8,0], [2,2,1]⟩⟩, by decide⟩, by decide, by decide⟩

/-- C10. The map view's displayed delay rate divides
`delayed_shipments / total_shipments` only under the guard
`total_shipments > 0`; when `total_shipments = 0` the displayed rate is
the literal `"0%"`, so the computation never divides by zero. -/
theorem C10_delay_rate_guard (r : RouteData) :
    (r.total_shipments = 0 → delayRateDisplay r = "0%") ∧
    (0 < r.total_shipments → delayRateDisplay r =
      toString (round ((r.delayed_shipments : ℚ) / (r.total_shipments : ℚ) * 100)) ++ "%") := by
  constructor
  · intro h
    unfold delayRateDisplay
    rw [h]
    rfl
  · intro h
    unfold delayRateDisplay
    rw [if_pos h]

/-- Witness for C10: a zero-shipment route displays the literal "0%", and
a 4-shipment route with 1 delay displays the rounded percentage. -/
theorem C10_delay_rate_guard_witness :
    delayRateDisplay zeroShipRoute = "0%" ∧
    delayRateDisplay busyRoute =
      toString (round ((busyRoute.delayed_shipments : ℚ) /
        (busyRoute.total_shipments : ℚ) * 100)) ++ "%" :=
  ⟨(C10_delay_rate_guard zeroShipRoute).1 rfl,
    (C10_delay_rate_guard busyRoute).2 (by decide)⟩

end FypMap
